import Mathlib

/-!
Shallow embedding of the ReveeGate donation/payment webhook pipeline.

The definitions below are translated from the Go sources of the repository:
  * internal/domain/donation + internal/domain/payment entities (entity.go),
  * the redis cache / pubsub collaborators (Cache.SetNX, IdempotencyKey,
    DonationEvent, PublishDonationEvent),
  * DonationService.ProcessWebhook and DonationService.ManualReconcile,
  * WebhookHandler.HandleMidtrans / verifyMidtransSignature /
    mapMidtransStatus / mapXenditStatus / logWebhook,
  * the websocket Hub (registerClient / unregisterClient /
    broadcastToChannel / BroadcastDonation).

Go times are modelled as natural-number instants, the database repositories
as in-memory lists inside a `World` record, and the redis idempotency store
as an association list of keys with absolute expiry instants plus an
availability flag (an unavailable store makes SetNX report an error; the
go-redis client then yields the zero value `false` for the claimed flag).
-/

namespace RG

/-- Payment.Status constants of internal/domain/payment (entity.go). -/
inductive PayStatus where
  | pending
  | paid
  | expired
  | failed
  | refunded
deriving DecidableEq, Repr

/-- Donation.Status constants of internal/domain/donation (entity.go). -/
inductive DonStatus where
  | pending
  | completed
  | expired
  | failed
  | cancelled
deriving DecidableEq, Repr

/-- Payment entity (internal/domain/payment).  Identity fields are kept as
naturals; timestamps are natural-number instants; the metadata map is an
association list updated by shadowing insertion at the front. -/
structure Payment where
  id : Nat
  donationID : Nat
  provider : String
  externalID : String
  amount : Int
  status : PayStatus
  paidAt : Option Nat
  updatedAt : Nat
  metadata : List (String × String)
deriving DecidableEq, Repr

/-- Donation entity (internal/domain/donation). -/
structure Donation where
  id : Nat
  donorName : String
  message : String
  amount : Int
  status : DonStatus
  paidAt : Option Nat
  updatedAt : Nat
deriving DecidableEq, Repr

/-- Payment.MarkAsPaid: sets status to paid, records paidAt and updatedAt. -/
def Payment.markAsPaid (p : Payment) (now : Nat) : Payment :=
  { p with status := PayStatus.paid, paidAt := some now, updatedAt := now }

/-- Payment.MarkAsExpired. -/
def Payment.markAsExpired (p : Payment) (now : Nat) : Payment :=
  { p with status := PayStatus.expired, updatedAt := now }

/-- Payment.MarkAsFailed. -/
def Payment.markAsFailed (p : Payment) (now : Nat) : Payment :=
  { p with status := PayStatus.failed, updatedAt := now }

/-- Payment.IsPaid. -/
def Payment.isPaid (p : Payment) : Bool :=
  p.status == PayStatus.paid

/-- Donation.MarkAsPaid: status becomes completed. -/
def Donation.markAsPaid (d : Donation) (now : Nat) : Donation :=
  { d with status := DonStatus.completed, paidAt := some now, updatedAt := now }

/-- Donation.MarkAsExpired. -/
def Donation.markAsExpired (d : Donation) (now : Nat) : Donation :=
  { d with status := DonStatus.expired, updatedAt := now }

/-- Donation.MarkAsFailed. -/
def Donation.markAsFailed (d : Donation) (now : Nat) : Donation :=
  { d with status := DonStatus.failed, updatedAt := now }

/-- DonationEvent of the redis pubsub package (part_005). -/
structure DonationEvent where
  type : String
  id : String
  donorName : String
  message : String
  amount : Int
  paidAt : String
deriving DecidableEq, Repr

/-- NewDonationEvent (part_005): the type field is always "new_donation". -/
def newDonationEvent (id donorName message : String) (amount : Int)
    (paidAt : String) : DonationEvent :=
  { type := "new_donation", id := id, donorName := donorName,
    message := message, amount := amount, paidAt := paidAt }

/-- IdempotencyKey (part_006): KeyPrefixWebhook is the literal "webhook:". -/
def idempotencyKey (provider externalID transactionID : String) : String :=
  "webhook:" ++ provider ++ ":" ++ externalID ++ ":" ++ transactionID

/-- Rendering of a nullable time value into the string carried by a
DonationEvent; stands in for Go's time.Format(time.RFC3339), which is an
injective rendering of the instant (the nil case would panic in Go and is
never reached on the paths that build events). -/
def formatTime : Option Nat → String
  | some n => toString n
  | none => ""

/-- World state threaded through the service layer: the redis idempotency
store (keys with absolute expiry instants) plus its availability, the
payment and donation tables, and the log of published donation events. -/
structure World where
  idemAvailable : Bool
  idem : List (String × Nat)
  payments : List Payment
  donations : List Donation
  published : List DonationEvent
deriving DecidableEq, Repr

/-- The 24*time.Hour TTL used by ProcessWebhook, in seconds. -/
def idemTTL : Nat := 24 * 60 * 60

/-- Cache.SetNX (part_006): atomic set-if-absent with TTL.  Returns
(claimed, errored, world).  When the store is unavailable the go-redis
BoolCmd carries an error and its Result() value is the zero value false.
A key counts as present when its first store entry is unexpired; claiming
inserts a fresh entry at the front (shadowing expired ones). -/
def cacheSetNX (w : World) (now : Nat) (key : String) (ttl : Nat) :
    Bool × Bool × World :=
  if !w.idemAvailable then (false, true, w)
  else
    match w.idem.find? (fun kv => kv.1 == key) with
    | some kv =>
      if now < kv.2 then (false, false, w)
      else (true, false, { w with idem := (key, now + ttl) :: w.idem })
    | none => (true, false, { w with idem := (key, now + ttl) :: w.idem })

/-- paymentRepo.GetByExternalID: first payment matching provider and
external order id. -/
def getPaymentByExternalID (w : World) (provider externalID : String) :
    Option Payment :=
  w.payments.find? (fun p => p.provider == provider && p.externalID == externalID)

/-- paymentRepo.GetByID. -/
def getPaymentByID (w : World) (id : Nat) : Option Payment :=
  w.payments.find? (fun p => p.id == id)

/-- paymentRepo.Update: replaces the stored row with the same id. -/
def updatePayment (w : World) (p : Payment) : World :=
  { w with payments := w.payments.map (fun q => if q.id == p.id then p else q) }

/-- donationRepo.GetByID. -/
def getDonationByID (w : World) (id : Nat) : Option Donation :=
  w.donations.find? (fun d => d.id == id)

/-- donationRepo.Update. -/
def updateDonation (w : World) (d : Donation) : World :=
  { w with donations := w.donations.map (fun e => if e.id == d.id then d else e) }

/-- PubSub.PublishDonationEvent: appends to the log of published events. -/
def publishDonationEvent (w : World) (e : DonationEvent) : World :=
  { w with published := w.published ++ [e] }

/-- ProcessWebhookParams (part_004). -/
structure ProcessWebhookParams where
  provider : String
  orderID : String
  transactionID : String
  status : PayStatus
  paidAt : Nat
  rawPayload : String
deriving DecidableEq, Repr

/-- DonationService.ProcessWebhook (part_004 lines 173-275), translated
branch by branch: claim the idempotency key (a SetNX error is only logged,
after which the claimed flag is false and the duplicate branch returns
success); on a fresh claim look up the payment, skip if already paid, and
otherwise apply the status transition, mirror it onto the donation and, on
paid, publish a DonationEvent. -/
def processWebhook (w : World) (now : Nat) (params : ProcessWebhookParams) :
    Except String Unit × World :=
  let key := idempotencyKey params.provider params.orderID params.transactionID
  let res := cacheSetNX w now key idemTTL
  let wset := res.1
  let w1 := res.2.2
  if !wset then (Except.ok (), w1)
  else
    match getPaymentByExternalID w1 params.provider params.orderID with
    | none => (Except.error "payment not found", w1)
    | some pay =>
      if pay.isPaid then (Except.ok (), w1)
      else
        match params.status with
        | PayStatus.paid =>
          let pay1 := pay.markAsPaid now
          let w2 := updatePayment w1 pay1
          match getDonationByID w2 pay1.donationID with
          | none => (Except.error "donation not found", w2)
          | some don =>
            let don1 := don.markAsPaid now
            let w3 := updateDonation w2 don1
            let event := newDonationEvent (toString don1.id) don1.donorName
              don1.message don1.amount (formatTime don1.paidAt)
            (Except.ok (), publishDonationEvent w3 event)
        | PayStatus.expired =>
          let pay1 := pay.markAsExpired now
          let w2 := updatePayment w1 pay1
          match getDonationByID w2 pay1.donationID with
          | none => (Except.ok (), w2)
          | some don => (Except.ok (), updateDonation w2 (don.markAsExpired now))
        | PayStatus.failed =>
          let pay1 := pay.markAsFailed now
          let w2 := updatePayment w1 pay1
          match getDonationByID w2 pay1.donationID with
          | none => (Except.ok (), w2)
          | some don => (Except.ok (), updateDonation w2 (don.markAsFailed now))
        | _ => (Except.ok (), w1)

/-- DonationService.ManualReconcile (part_004 lines 278-328): looks up the
payment and its donation, applies the override status (only paid and failed
change anything; paid also publishes an event), stamps the reconciliation
metadata, and persists both rows. -/
def manualReconcile (w : World) (now : Nat) (paymentID : Nat)
    (status : PayStatus) (reason : String) : Except String Unit × World :=
  match getPaymentByID w paymentID with
  | none => (Except.error "payment not found", w)
  | some pay =>
    match getDonationByID w pay.donationID with
    | none => (Except.error "donation not found", w)
    | some don =>
      let step : Payment × Donation × World :=
        match status with
        | PayStatus.paid =>
          let d1 := don.markAsPaid now
          let ev := newDonationEvent (toString d1.id) d1.donorName d1.message
            d1.amount (formatTime d1.paidAt)
          (pay.markAsPaid now, d1, publishDonationEvent w ev)
        | PayStatus.failed => (pay.markAsFailed now, don.markAsFailed now, w)
        | _ => (pay, don, w)
      let pay2 := { step.1 with metadata :=
        ("reconciliation_at", toString now) ::
        ("reconciliation_reason", reason) :: step.1.metadata }
      let w2 := updatePayment step.2.2 pay2
      (Except.ok (), updateDonation w2 step.2.1)

/-- MidtransWebhook DTO (internal/http/dto/donation.go). -/
structure MidtransWebhook where
  orderID : String
  transactionID : String
  transactionStatus : String
  transactionTime : String
  settlementTime : String
  statusCode : String
  grossAmount : String
  paymentType : String
  signatureKey : String
  fraudStatus : String
deriving DecidableEq, Repr

/-- WebhookHandler.mapMidtransStatus (webhook_handler.go lines 195-213):
the switch over transaction_status, with the capture case further gated on
fraud_status. -/
def mapMidtransStatus (transactionStatus fraudStatus : String) : PayStatus :=
  if transactionStatus = "capture" then
    if fraudStatus = "accept" ∨ fraudStatus = "" then PayStatus.paid
    else PayStatus.pending
  else if transactionStatus = "settlement" then PayStatus.paid
  else if transactionStatus = "pending" then PayStatus.pending
  else if transactionStatus = "deny" ∨ transactionStatus = "cancel" then
    PayStatus.failed
  else if transactionStatus = "expire" then PayStatus.expired
  else PayStatus.pending

/-- WebhookHandler.mapXenditStatus (webhook_handler.go lines 216-229). -/
def mapXenditStatus (status : String) : PayStatus :=
  if status = "PAID" ∨ status = "SETTLED" ∨ status = "COMPLETED" then
    PayStatus.paid
  else if status = "PENDING" ∨ status = "ACTIVE" then PayStatus.pending
  else if status = "EXPIRED" then PayStatus.expired
  else if status = "FAILED" then PayStatus.failed
  else PayStatus.pending

/-- Lowercase hex digit table of encoding/hex (hextable =
"0123456789abcdef"); indices above 15 never arise from a byte split. -/
def hexDigit : Nat → Char
  | 0 => '0' | 1 => '1' | 2 => '2' | 3 => '3' | 4 => '4'
  | 5 => '5' | 6 => '6' | 7 => '7' | 8 => '8' | 9 => '9'
  | 10 => 'a' | 11 => 'b' | 12 => 'c' | 13 => 'd' | 14 => 'e'
  | _ => 'f'

/-- hex.EncodeToString over a byte slice: each byte v yields
hextable[v>>4] then hextable[v&0x0f]. -/
def hexEncodeToString (bs : List (Fin 256)) : String :=
  String.mk (bs.foldr
    (fun b acc => hexDigit (b.val / 16) :: hexDigit (b.val % 16) :: acc) [])

/-- crypto/hmac.Equal applied to the UTF-8 bytes of two strings; the
constant-time byte-slice comparison returns true exactly when the byte
slices (hence the strings) are equal. -/
def hmacEqual (a b : String) : Bool :=
  a == b

/-- WebhookHandler.verifyMidtransSignature (webhook_handler.go lines
183-192).  The SHA-512 digest function of crypto/sha512 is an external
collaborator and is passed in as a byte-producing function. -/
def verifyMidtransSignature (sha512 : String → List (Fin 256))
    (serverKey : String) (webhook : MidtransWebhook) : Bool :=
  let data := webhook.orderID ++ webhook.statusCode ++ webhook.grossAmount
    ++ serverKey
  let expectedSignature := hexEncodeToString (sha512 data)
  hmacEqual expectedSignature webhook.signatureKey

/-- WebhookLog row persisted by WebhookHandler.logWebhook (only the fields
the claims inspect). -/
structure WebhookLogEntry where
  provider : String
  payload : String
deriving DecidableEq, Repr

/-- Handler-level state: the webhook_logs table plus the service World. -/
structure HandlerWorld where
  logs : List WebhookLogEntry
  svc : World
deriving DecidableEq, Repr

/-- Outcome of HandleMidtrans: 401 on a bad signature, 200 with an error
body when ProcessWebhook fails, plain 200 otherwise. -/
inductive MidtransResponse where
  | invalidSignature
  | processingError (msg : String)
  | ok
deriving DecidableEq, Repr

/-- WebhookHandler.HandleMidtrans (webhook_handler.go lines 44-112) for a
request whose body was read and parsed successfully: the webhook is first
logged via logWebhook, then the signature is verified (401 and stop on
mismatch), then the mapped status is handed to ProcessWebhook.  The unused
params.PaidAt parse of settlement_time is modelled as the instant 0. -/
def handleMidtrans (sha512 : String → List (Fin 256)) (serverKey : String)
    (hw : HandlerWorld) (now : Nat) (body : String)
    (webhook : MidtransWebhook) : MidtransResponse × HandlerWorld :=
  let hw1 : HandlerWorld :=
    { hw with logs := hw.logs ++ [⟨"midtrans", body⟩] }
  if !(verifyMidtransSignature sha512 serverKey webhook) then
    (MidtransResponse.invalidSignature, hw1)
  else
    let params : ProcessWebhookParams :=
      { provider := "midtrans", orderID := webhook.orderID,
        transactionID := webhook.transactionID,
        status := mapMidtransStatus webhook.transactionStatus webhook.fraudStatus,
        paidAt := 0, rawPayload := body }
    let r := processWebhook hw1.svc now params
    match r.1 with
    | Except.error msg => (MidtransResponse.processingError msg, { hw1 with svc := r.2 })
    | Except.ok _ => (MidtransResponse.ok, { hw1 with svc := r.2 })

end RG

namespace WS

/-- WebSocket client (internal/realtime/websocket): the outbound queue is
the buffered send channel, with its capacity; in the Go code the queue
lives behind the client pointer, so enqueueing mutates the client while
the hub registry keeps the same member set. -/
structure Client where
  id : Nat
  channel : String
  send : List String
  cap : Nat
deriving DecidableEq, Repr

/-- Hub registry: the clients map from channel name to the set of members,
rendered as an association list with one entry per channel. -/
abbrev Registry := List (String × List Client)

/-- Read of h.clients[ch]. -/
def lookupChannel (reg : Registry) (ch : String) : Option (List Client) :=
  (reg.find? (fun e => e.1 == ch)).map (fun e => e.2)

/-- Write of h.clients[ch] = ms for an existing channel entry. -/
def setChannel (reg : Registry) (ch : String) (ms : List Client) : Registry :=
  reg.map (fun e => if e.1 == ch then (e.1, ms) else e)

/-- delete(h.clients, ch). -/
def removeChannel (reg : Registry) (ch : String) : Registry :=
  reg.filter (fun e => !(e.1 == ch))

/-- Enqueueing a message onto a client's outbound queue. -/
def enqueueMsg (msg : String) (c : Client) : Client :=
  { c with send := c.send ++ [msg] }

/-- The non-blocking select of broadcastToChannel: the send succeeds iff
the buffered channel has a free slot; on a full queue the client is left
untouched and reported as failed. -/
def trySend (msg : String) (c : Client) : Client × Bool :=
  if c.send.length < c.cap then (enqueueMsg msg c, true) else (c, false)

/-- Hub.broadcastToChannel (hub.go lines 131-148): for each member of the
channel attempt a non-blocking enqueue; members whose queue is full are
pushed onto the unregister request channel (second component).  The
registry membership itself is not modified; only the members' queues
change. -/
def broadcastToChannel (reg : Registry) (ch : String) (msg : String) :
    Registry × List Client :=
  match lookupChannel reg ch with
  | none => (reg, [])
  | some members =>
    let results := members.map (trySend msg)
    (setChannel reg ch (results.map (fun r => r.1)),
     (results.filter (fun r => !r.2)).map (fun r => r.1))

/-- Hub.unregisterClient (hub.go lines 109-128): if the client's channel
entry exists and still contains the client, remove it, close its send
channel (the returned flag records that a close happened in this call),
and delete the channel entry when the member set became empty. -/
def unregisterClient (reg : Registry) (c : Client) : Registry × Bool :=
  match lookupChannel reg c.channel with
  | none => (reg, false)
  | some members =>
    if c ∈ members then
      let members' := members.erase c
      if members'.isEmpty then (removeChannel reg c.channel, true)
      else (setChannel reg c.channel members', true)
    else (reg, false)

/-- BroadcastMessage (hub.go); the message payload stands for the JSON
rendering of the outgoing donation envelope, whose marshalling never fails
for this struct. -/
structure BroadcastMessage where
  channel : String
  message : RG.DonationEvent
deriving DecidableEq, Repr

/-- The channel filter of Hub.BroadcastDonation: len(channel) > 8 and
channel[:8] == "overlay:". -/
def isOverlayChannel (ch : String) : Bool :=
  decide (8 < ch.data.length) && decide (ch.data.take 8 = "overlay:".data)

/-- Hub.BroadcastDonation (hub.go lines 151-182): walk the registry and
enqueue one BroadcastMessage per channel passing the overlay filter. -/
def broadcastDonation (reg : Registry) (event : RG.DonationEvent) :
    List BroadcastMessage :=
  ((reg.map (fun e => e.1)).filter isOverlayChannel).map
    (fun ch => { channel := ch, message := event })

end WS

/-! Concrete fixtures used by witnesses and counterexamples. -/

/-- A payment already settled (status paid). -/
def samplePaidPayment : RG.Payment :=
  { id := 1, donationID := 10, provider := "midtrans", externalID := "ORD-1",
    amount := 5000, status := RG.PayStatus.paid, paidAt := some 1,
    updatedAt := 1, metadata := [] }

/-- A pending payment awaiting settlement. -/
def samplePendingPayment : RG.Payment :=
  { id := 2, donationID := 20, provider := "midtrans", externalID := "ORD-2",
    amount := 7000, status := RG.PayStatus.pending, paidAt := none,
    updatedAt := 0, metadata := [] }

/-- The donation behind the paid payment. -/
def sampleDonationDone : RG.Donation :=
  { id := 10, donorName := "Alice", message := "hi", amount := 5000,
    status := RG.DonStatus.completed, paidAt := some 1, updatedAt := 1 }

/-- The donation behind the pending payment. -/
def sampleDonationOpen : RG.Donation :=
  { id := 20, donorName := "Bob", message := "yo", amount := 7000,
    status := RG.DonStatus.pending, paidAt := none, updatedAt := 0 }

/-- Webhook parameters reporting the pending payment as paid. -/
def paidParamsPending : RG.ProcessWebhookParams :=
  { provider := "midtrans", orderID := "ORD-2", transactionID := "T1",
    status := RG.PayStatus.paid, paidAt := 0, rawPayload := "" }

/-- A world whose idempotency store is unavailable while a matching
pending payment exists. -/
def worldStoreDown : RG.World :=
  { idemAvailable := false, idem := [],
    payments := [samplePendingPayment], donations := [sampleDonationOpen],
    published := [] }

/-- A world whose idempotency store already holds the claimed key for the
pending payment's webhook. -/
def worldKeyClaimed : RG.World :=
  { idemAvailable := true,
    idem := [("webhook:midtrans:ORD-2:T1", 100)],
    payments := [samplePendingPayment], donations := [sampleDonationOpen],
    published := [] }

/-- A world with an empty store and no payments at all. -/
def worldEmpty : RG.World :=
  { idemAvailable := true, idem := [], payments := [], donations := [],
    published := [] }

/-- The world seen by a retry after the not-found first call of C10: the
key is claimed and the matching payment now exists. -/
def worldRetry : RG.World :=
  { idemAvailable := true,
    idem := [("webhook:midtrans:ORD-2:T1", 5 + RG.idemTTL)],
    payments := [samplePendingPayment], donations := [sampleDonationOpen],
    published := [] }

/-- A world holding the already-paid payment and its donation. -/
def worldPaid : RG.World :=
  { idemAvailable := true, idem := [], payments := [samplePaidPayment],
    donations := [sampleDonationDone], published := [] }

/-- The paid payment as it appears after a ManualReconcile with status
pending at instant 9 and reason "note": only the metadata differs. -/
def reconciledPaidPayment : RG.Payment :=
  { samplePaidPayment with metadata :=
    [("reconciliation_at", "9"), ("reconciliation_reason", "note")] }

/-- A degenerate digest collaborator used by concrete runs: it hashes
everything to the empty digest, so the expected signature is "". -/
def shaZero : String → List (Fin 256) := fun _ => []

/-- A Midtrans webhook carrying a signature that does not verify. -/
def badSigWebhook : RG.MidtransWebhook :=
  { orderID := "ORD-2", transactionID := "T1",
    transactionStatus := "settlement", transactionTime := "",
    settlementTime := "", statusCode := "200", grossAmount := "7000.00",
    paymentType := "qris", signatureKey := "bad", fraudStatus := "" }

/-- Handler world with an empty webhook-log table over the empty service
world. -/
def handlerWorldEmpty : RG.HandlerWorld :=
  { logs := [], svc := worldEmpty }

/-- Modelled from the amended claim wording: Midtrans capture maps to paid
exactly when fraud_status is accept or empty (pending otherwise);
settlement maps to paid, pending to pending, deny and cancel to failed,
expire to expired; every other value maps to pending. -/
def specMidtransStatus (transactionStatus fraudStatus : String) : RG.PayStatus :=
  if transactionStatus = "capture" then
    if fraudStatus ∈ ["accept", ""] then RG.PayStatus.paid
    else RG.PayStatus.pending
  else if transactionStatus = "settlement" then RG.PayStatus.paid
  else if transactionStatus = "pending" then RG.PayStatus.pending
  else if transactionStatus ∈ ["deny", "cancel"] then RG.PayStatus.failed
  else if transactionStatus = "expire" then RG.PayStatus.expired
  else RG.PayStatus.pending

/-- Modelled from the amended claim wording: Xendit PAID, SETTLED and
COMPLETED map to paid; PENDING and ACTIVE to pending; EXPIRED to expired;
FAILED to failed; every other value maps to pending. -/
def specXenditStatus (status : String) : RG.PayStatus :=
  if status ∈ ["PAID", "SETTLED", "COMPLETED"] then RG.PayStatus.paid
  else if status ∈ ["PENDING", "ACTIVE"] then RG.PayStatus.pending
  else if status = "EXPIRED" then RG.PayStatus.expired
  else if status = "FAILED" then RG.PayStatus.failed
  else RG.PayStatus.pending

/-- An overlay viewer connection with room in its outbound queue. -/
def wsClientA : WS.Client :=
  { id := 1, channel := "overlay:t", send := [], cap := 2 }

/-- A connection whose outbound queue is full (capacity 0). -/
def wsClientFull : WS.Client :=
  { id := 2, channel := "overlay:t", send := [], cap := 0 }

/-- A second overlay viewer connection with queue room. -/
def wsClientB : WS.Client :=
  { id := 3, channel := "overlay:t", send := [], cap := 2 }

/-- An admin connection on an admin channel. -/
def wsAdminClient : WS.Client :=
  { id := 4, channel := "admin:7", send := [], cap := 2 }

/-- A hub registry with three members on one overlay channel, the middle
one full. -/
def wsRegistryTrio : WS.Registry :=
  [("overlay:t", [wsClientA, wsClientFull, wsClientB])]

/-- A hub registry with two members on one overlay channel. -/
def wsRegistryPair : WS.Registry :=
  [("overlay:t", [wsClientA, wsClientB])]

/-- A hub registry holding one overlay channel and one admin channel. -/
def wsRegistryMixed : WS.Registry :=
  [("overlay:tok", [wsClientA]), ("admin:7", [wsAdminClient])]

/-- A concrete donation event. -/
def sampleEvent : RG.DonationEvent :=
  RG.newDonationEvent "10" "Alice" "hi" 5000 "1"

/-- The broadcast message the mixed registry produces for the overlay
channel. -/
def wsOverlayMessage : WS.BroadcastMessage :=
  { channel := "overlay:tok", message := sampleEvent }

/-! Claim C2: behaviour of ProcessWebhook when SetNX reports an error. -/

/-- C2 counterexample: with the idempotency store unavailable and a
matching pending payment on file, ProcessWebhook returns success and the
world is untouched — the pending payment is NOT transitioned, so the code
does not proceed with payment lookup and state-machine processing. -/
theorem C2_fail_open_counterexample :
    (RG.processWebhook worldStoreDown 5 paidParamsPending).1 = Except.ok () ∧
    (RG.processWebhook worldStoreDown 5 paidParamsPending).2 = worldStoreDown ∧
    RG.getPaymentByExternalID worldStoreDown "midtrans" "ORD-2" =
      some samplePendingPayment ∧
    samplePendingPayment.status = RG.PayStatus.pending := by
  refine ⟨rfl, by decide, by decide, rfl⟩

/-- C2 amended: on an idempotency-store error ProcessWebhook fails closed:
the SetNX error leaves the claimed flag false, so the duplicate branch
returns success without looking up the payment or mutating any state. -/
theorem C2_store_error_fails_closed (w : RG.World) (now : Nat)
    (p : RG.ProcessWebhookParams) (h : w.idemAvailable = false) :
    RG.processWebhook w now p = (Except.ok (), w) := by
  simp [RG.processWebhook, RG.cacheSetNX, h]

/-- C2 witness: the amended theorem at the concrete store-down world. -/
theorem C2_store_error_witness :
    RG.processWebhook worldStoreDown 7 paidParamsPending =
      (Except.ok (), worldStoreDown) :=
  C2_store_error_fails_closed worldStoreDown 7 paidParamsPending rfl

/-! Claim C4: replay with an already-claimed idempotency key. -/

/-- C4: when the idempotency key of the webhook is already claimed (its
first store entry is unexpired), ProcessWebhook returns success and the
whole world — payment table, donation table, published events and the
store itself — is unchanged. -/
theorem C4_duplicate_webhook_is_noop (w : RG.World) (now : Nat)
    (p : RG.ProcessWebhookParams) (kv : String × Nat)
    (h1 : w.idemAvailable = true)
    (h2 : w.idem.find? (fun e =>
      e.1 == RG.idempotencyKey p.provider p.orderID p.transactionID) = some kv)
    (h3 : now < kv.2) :
    RG.processWebhook w now p = (Except.ok (), w) := by
  simp [RG.processWebhook, RG.cacheSetNX, h1, h2, h3]

/-- C4 witness: the replay no-op at a concrete claimed world. -/
theorem C4_duplicate_webhook_witness :
    RG.processWebhook worldKeyClaimed 5 paidParamsPending =
      (Except.ok (), worldKeyClaimed) :=
  C4_duplicate_webhook_is_noop worldKeyClaimed 5 paidParamsPending
    ("webhook:midtrans:ORD-2:T1", 100) rfl rfl (by decide)

/-! Claim C5: the provider status mapping tables. -/

/-- C5 counterexample: the claim is wrong on both tables — Midtrans
capture with a challenged fraud status maps to pending, not paid, and the
unlisted Xendit value COMPLETED maps to paid, not pending. -/
theorem C5_mapping_counterexample :
    RG.mapMidtransStatus "capture" "challenge" = RG.PayStatus.pending ∧
    RG.mapXenditStatus "COMPLETED" = RG.PayStatus.paid ∧
    RG.PayStatus.pending ≠ RG.PayStatus.paid := by
  decide

/-- C5 amended: both code mapping functions agree everywhere with the
amended mapping tables (capture gated on fraud status, COMPLETED added to
the Xendit paid row, every other unlisted value defaulting to pending). -/
theorem C5_status_mapping_amended :
    (∀ ts fs, RG.mapMidtransStatus ts fs = specMidtransStatus ts fs) ∧
    (∀ s, RG.mapXenditStatus s = specXenditStatus s) := by
  constructor
  · intro ts fs
    simp only [RG.mapMidtransStatus, specMidtransStatus, List.mem_cons,
      List.not_mem_nil, or_false]
  · intro s
    simp only [RG.mapXenditStatus, specXenditStatus, List.mem_cons,
      List.not_mem_nil, or_false]

/-! Claim C7: Midtrans signature verification. -/

/-- Every hex digit emitted by the encoder is a lowercase hex character. -/
theorem hexDigit_contains (n : Nat) :
    ("0123456789abcdef").data.contains (RG.hexDigit n) = true := by
  unfold RG.hexDigit
  split <;> decide

/-- C7: verification accepts a webhook exactly when its signature_key
equals the hex encoding of SHA-512 over order_id ++ status_code ++
gross_amount ++ serverKey, and that encoding consists solely of lowercase
hex characters.  (The comparison is Go's hmac.Equal, whose constant-time
execution is a property of the library primitive, not of the value it
computes.) -/
theorem C7_signature_verification :
    (∀ (sha512 : String → List (Fin 256)) (serverKey : String)
      (w : RG.MidtransWebhook),
      RG.verifyMidtransSignature sha512 serverKey w = true ↔
      w.signatureKey = RG.hexEncodeToString
        (sha512 (w.orderID ++ w.statusCode ++ w.grossAmount ++ serverKey))) ∧
    (∀ bs : List (Fin 256),
      (RG.hexEncodeToString bs).data.all
        (fun c => ("0123456789abcdef").data.contains c) = true) := by
  constructor
  · intro f k w
    simp only [RG.verifyMidtransSignature, RG.hmacEqual, beq_iff_eq]
    exact eq_comm
  · intro bs
    induction bs with
    | nil => decide
    | cons b t ih =>
      simp only [RG.hexEncodeToString, List.foldr_cons, List.all_cons,
        Bool.and_eq_true] at ih ⊢
      exact ⟨hexDigit_contains _, hexDigit_contains _, ih⟩

/-! Claim C3: Midtrans ingestion with an invalid signature. -/

/-- C3 counterexample: on an invalid signature HandleMidtrans does return
the unauthorized outcome, but it is not true that no persistence of any
kind happens — the webhook-log row has already been persisted by
logWebhook before the signature is checked. -/
theorem C3_no_persistence_counterexample :
    (RG.handleMidtrans shaZero "key" handlerWorldEmpty 5 "raw" badSigWebhook).1 =
      RG.MidtransResponse.invalidSignature ∧
    (RG.handleMidtrans shaZero "key" handlerWorldEmpty 5 "raw" badSigWebhook).2.logs ≠
      handlerWorldEmpty.logs := by
  exact ⟨rfl, by decide⟩

/-- C3 amended: an invalid Midtrans signature yields the unauthorized
outcome with the service state (idempotency store, payments, donations,
published events) untouched — so a corrected retry is not treated as a
duplicate — but one webhook-log row is persisted before the rejection. -/
theorem C3_invalid_signature_amended (sha512 : String → List (Fin 256))
    (serverKey : String) (hw : RG.HandlerWorld) (now : Nat) (body : String)
    (webhook : RG.MidtransWebhook)
    (h : RG.verifyMidtransSignature sha512 serverKey webhook = false) :
    (RG.handleMidtrans sha512 serverKey hw now body webhook).1 =
      RG.MidtransResponse.invalidSignature ∧
    (RG.handleMidtrans sha512 serverKey hw now body webhook).2.svc = hw.svc ∧
    (RG.handleMidtrans sha512 serverKey hw now body webhook).2.logs =
      hw.logs ++ [{ provider := "midtrans", payload := body }] ∧
    ∀ (n : Nat) (q : RG.ProcessWebhookParams),
      RG.processWebhook
        (RG.handleMidtrans sha512 serverKey hw now body webhook).2.svc n q =
      RG.processWebhook hw.svc n q := by
  simp [RG.handleMidtrans, h]

/-- C3 witness: the amended theorem at the concrete bad-signature run. -/
theorem C3_invalid_signature_witness :
    (RG.handleMidtrans shaZero "key" handlerWorldEmpty 6 "raw" badSigWebhook).1 =
      RG.MidtransResponse.invalidSignature ∧
    (RG.handleMidtrans shaZero "key" handlerWorldEmpty 6 "raw" badSigWebhook).2.svc =
      handlerWorldEmpty.svc := by
  have h := C3_invalid_signature_amended shaZero "key" handlerWorldEmpty 6
    "raw" badSigWebhook rfl
  exact ⟨h.1, h.2.1⟩

/-! Claim C10: the idempotency key is claimed before the payment lookup
and never released on failure. -/

/-- C10: for a webhook whose key is unclaimed and whose payment lookup
finds nothing, the first ProcessWebhook call returns the not-found error
yet leaves the key claimed for 24 hours (all tables otherwise untouched);
any retry of the same parameters before the expiry — against any world
carrying that store state, even one where the payment now exists —
returns success without changing anything. -/
theorem C10_claimed_key_not_released (w : RG.World) (now : Nat)
    (p : RG.ProcessWebhookParams)
    (h1 : w.idemAvailable = true)
    (h2 : w.idem.find? (fun e =>
      e.1 == RG.idempotencyKey p.provider p.orderID p.transactionID) = none)
    (h3 : RG.getPaymentByExternalID w p.provider p.orderID = none) :
    (RG.processWebhook w now p).1 = Except.error "payment not found" ∧
    (RG.processWebhook w now p).2 =
      { w with idem :=
        (RG.idempotencyKey p.provider p.orderID p.transactionID,
         now + RG.idemTTL) :: w.idem } ∧
    ∀ (t1 : Nat) (w2 : RG.World), w2.idemAvailable = true →
      w2.idem = (RG.processWebhook w now p).2.idem →
      t1 < now + RG.idemTTL →
      RG.processWebhook w2 t1 p = (Except.ok (), w2) := by
  have hrun : RG.processWebhook w now p =
      (Except.error "payment not found",
       { w with idem :=
         (RG.idempotencyKey p.provider p.orderID p.transactionID,
          now + RG.idemTTL) :: w.idem }) := by
    have h3' := h3
    simp only [RG.getPaymentByExternalID] at h3'
    simp [RG.processWebhook, RG.cacheSetNX, RG.getPaymentByExternalID,
      h1, h2, h3']
  refine ⟨by rw [hrun], by rw [hrun], ?_⟩
  intro t1 w2 g1 g2 g3
  rw [hrun] at g2
  simp [RG.processWebhook, RG.cacheSetNX, g1, g2, g3]

/-- C10 witness: the first call errors at the empty world, and the retry
one instant later against a world where the matching payment now exists is
swallowed as a duplicate. -/
theorem C10_claimed_key_witness :
    (RG.processWebhook worldEmpty 5 paidParamsPending).1 =
      Except.error "payment not found" ∧
    RG.processWebhook worldRetry 6 paidParamsPending =
      (Except.ok (), worldRetry) := by
  have h := C10_claimed_key_not_released worldEmpty 5 paidParamsPending
    rfl rfl rfl
  exact ⟨h.1, h.2.2 6 worldRetry rfl (by rw [h.2.1]; rfl) (by decide)⟩

/-! Claim C1: terminality of the paid status, with supporting frame lemmas
about which payment rows ProcessWebhook and ManualReconcile can touch. -/

/-- Every branch of cacheSetNX leaves the payment table unchanged. -/
theorem cacheSetNX_payments (w : RG.World) (now : Nat) (key : String) (ttl : Nat) :
    ((RG.cacheSetNX w now key ttl).2.2).payments = w.payments := by
  unfold RG.cacheSetNX
  split
  · rfl
  · split
    · split
      · rfl
      · rfl
    · rfl

/-- The payment lookup only reads the payment table. -/
theorem getPaymentByExternalID_congr (w1 w2 : RG.World) (a b : String)
    (h : w1.payments = w2.payments) :
    RG.getPaymentByExternalID w1 a b = RG.getPaymentByExternalID w2 a b := by
  simp [RG.getPaymentByExternalID, h]

/-- Two stored payments with the same id are the same row when the table
has no duplicate ids. -/
theorem payments_unique (w : RG.World)
    (hnd : (w.payments.map RG.Payment.id).Nodup)
    (a b : RG.Payment) (ha : a ∈ w.payments) (hb : b ∈ w.payments)
    (hid : a.id = b.id) : a = b :=
  List.inj_on_of_nodup_map hnd ha hb hid

/-- A row of the table after updatePayment is either the written row or an
untouched pre-existing row. -/
theorem updatePayment_mem (w : RG.World) (pn q : RG.Payment)
    (hq : q ∈ (RG.updatePayment w pn).payments) : q = pn ∨ q ∈ w.payments := by
  simp only [RG.updatePayment, List.mem_map] at hq
  obtain ⟨r, hr, he⟩ := hq
  by_cases hb : (r.id == pn.id)
  · rw [if_pos hb] at he
    exact Or.inl he.symm
  · rw [if_neg hb] at he
    exact Or.inr (he ▸ hr)

/-- ProcessWebhook either leaves the payment table unchanged or rewrites
exactly the rows sharing the id of the (not yet paid) payment it found. -/
theorem processWebhook_payments (w : RG.World) (now : Nat)
    (params : RG.ProcessWebhookParams) :
    (RG.processWebhook w now params).2.payments = w.payments ∨
    ∃ pay : RG.Payment,
      RG.getPaymentByExternalID w params.provider params.orderID = some pay ∧
      pay.isPaid = false ∧
      ∃ pn : RG.Payment, pn.id = pay.id ∧
        (RG.processWebhook w now params).2.payments =
          w.payments.map (fun r => if r.id == pn.id then pn else r) := by
  simp only [RG.processWebhook]
  split
  · left; exact cacheSetNX_payments w now _ RG.idemTTL
  · split
    · left; exact cacheSetNX_payments w now _ RG.idemTTL
    · rename_i pay heq
      have heqw : RG.getPaymentByExternalID w params.provider params.orderID = some pay := by
        rw [← heq]
        exact (getPaymentByExternalID_congr _ w _ _
          (cacheSetNX_payments w now _ RG.idemTTL)).symm
      split
      · left; exact cacheSetNX_payments w now _ RG.idemTTL
      · rename_i hpaid
        have hpaid' : pay.isPaid = false := by
          simpa using hpaid
        split
        · split
          · right
            refine ⟨pay, heqw, hpaid', pay.markAsPaid now, rfl, ?_⟩
            simp only [RG.updatePayment]
            rw [cacheSetNX_payments w now _ RG.idemTTL]
          · right
            refine ⟨pay, heqw, hpaid', pay.markAsPaid now, rfl, ?_⟩
            simp only [RG.publishDonationEvent, RG.updateDonation, RG.updatePayment]
            rw [cacheSetNX_payments w now _ RG.idemTTL]
        · split
          · right
            refine ⟨pay, heqw, hpaid', pay.markAsExpired now, rfl, ?_⟩
            simp only [RG.updatePayment]
            rw [cacheSetNX_payments w now _ RG.idemTTL]
          · right
            refine ⟨pay, heqw, hpaid', pay.markAsExpired now, rfl, ?_⟩
            simp only [RG.updateDonation, RG.updatePayment]
            rw [cacheSetNX_payments w now _ RG.idemTTL]
        · split
          · right
            refine ⟨pay, heqw, hpaid', pay.markAsFailed now, rfl, ?_⟩
            simp only [RG.updatePayment]
            rw [cacheSetNX_payments w now _ RG.idemTTL]
          · right
            refine ⟨pay, heqw, hpaid', pay.markAsFailed now, rfl, ?_⟩
            simp only [RG.updateDonation, RG.updatePayment]
            rw [cacheSetNX_payments w now _ RG.idemTTL]
        · left; exact cacheSetNX_payments w now _ RG.idemTTL

/-- Every payment row surviving a ManualReconcile with a status other than
failed is either an untouched old row or the reconciled row, whose status
is paid (manual paid override) or the looked-up payment's old status. -/
theorem manualReconcile_mem (w : RG.World) (now pid : Nat)
    (st : RG.PayStatus) (reason : String)
    (hst : st ≠ RG.PayStatus.failed) :
    ∀ q : RG.Payment, q ∈ (RG.manualReconcile w now pid st reason).2.payments →
      q ∈ w.payments ∨
      ∃ pay : RG.Payment, RG.getPaymentByID w pid = some pay ∧
        q.id = pay.id ∧
        (q.status = RG.PayStatus.paid ∨ q.status = pay.status) := by
  intro q hq
  simp only [RG.manualReconcile] at hq
  split at hq
  · exact Or.inl hq
  · rename_i pay hfind
    split at hq
    · exact Or.inl hq
    · rename_i don hdon
      split at hq
      · rcases updatePayment_mem _ _ q hq with hqe | hqw
        · right
          exact ⟨pay, hfind, by rw [hqe]; rfl, by left; rw [hqe]; rfl⟩
        · exact Or.inl hqw
      · exact absurd rfl hst
      · rcases updatePayment_mem _ _ q hq with hqe | hqw
        · right
          exact ⟨pay, hfind, by rw [hqe], by right; rw [hqe]⟩
        · exact Or.inl hqw

/-- C1 counterexample: a Payment whose status is paid is overwritten to
failed by ManualReconcile reporting the non-paid status failed, so paid is
not terminal as claimed. -/
theorem C1_paid_overwritten_counterexample :
    samplePaidPayment.status = RG.PayStatus.paid ∧
    ((RG.manualReconcile worldPaid 9 1 RG.PayStatus.failed
        "chargeback").2.payments.map RG.Payment.status) =
      [RG.PayStatus.failed] ∧
    (RG.manualReconcile worldPaid 9 1 RG.PayStatus.failed "chargeback").1 =
      Except.ok () := by
  exact ⟨rfl, by decide, rfl⟩

/-- C1 amended: once a Payment is paid, no ProcessWebhook call changes its
status (in particular it never re-enters pending and never becomes failed
or expired through a webhook), and no ManualReconcile with a status other
than failed changes it; ManualReconcile with status failed, however, does
overwrite a paid Payment to failed. -/
theorem C1_paid_terminal_amended (w : RG.World) (p : RG.Payment)
    (hnd : (w.payments.map RG.Payment.id).Nodup)
    (hmem : p ∈ w.payments) (hp : p.status = RG.PayStatus.paid) :
    (∀ (params : RG.ProcessWebhookParams) (now : Nat) (q : RG.Payment),
       q ∈ (RG.processWebhook w now params).2.payments → q.id = p.id →
       q.status = RG.PayStatus.paid) ∧
    (∀ (now pid : Nat) (st : RG.PayStatus) (reason : String),
       st ≠ RG.PayStatus.failed →
       ∀ q : RG.Payment,
         q ∈ (RG.manualReconcile w now pid st reason).2.payments →
         q.id = p.id → q.status = RG.PayStatus.paid) := by
  have hByW : ∀ q : RG.Payment, q ∈ w.payments → q.id = p.id →
      q.status = RG.PayStatus.paid := by
    intro q hq hqid
    have hqp : q = p := payments_unique w hnd q p hq hmem hqid
    rw [hqp, hp]
  constructor
  · intro params now q hq hid
    rcases processWebhook_payments w now params with hcase |
      ⟨pay, hfind, hpaid, pn, hpnid, hres⟩
    · rw [hcase] at hq; exact hByW q hq hid
    · rw [hres] at hq
      rcases updatePayment_mem w pn q hq with hqe | hqw
      · have hpayMem : pay ∈ w.payments := by
          simp only [RG.getPaymentByExternalID] at hfind
          exact List.mem_of_find?_eq_some hfind
        have hpid : pay.id = p.id := by
          rw [← hpnid, ← hqe]; exact hid
        have hpe : pay = p := payments_unique w hnd pay p hpayMem hmem hpid
        rw [hpe] at hpaid
        have hpt : p.isPaid = true := by simp [RG.Payment.isPaid, hp]
        rw [hpt] at hpaid
        exact absurd hpaid (by decide)
      · exact hByW q hqw hid
  · intro now pid st reason hst q hq hid
    rcases manualReconcile_mem w now pid st reason hst q hq with hqw |
      ⟨pay, hfind, hqid, hqst⟩
    · exact hByW q hqw hid
    · have hpayMem : pay ∈ w.payments := by
        simp only [RG.getPaymentByID] at hfind
        exact List.mem_of_find?_eq_some hfind
      have hpid : pay.id = p.id := by rw [← hqid]; exact hid
      have hpe : pay = p := payments_unique w hnd pay p hpayMem hmem hpid
      rcases hqst with h1 | h2
      · exact h1
      · rw [h2, hpe, hp]

/-- C1 witness: the amended theorem applied to the concrete paid world, at
the row produced by a ManualReconcile with status pending. -/
theorem C1_paid_terminal_witness :
    reconciledPaidPayment.status = RG.PayStatus.paid :=
  (C1_paid_terminal_amended worldPaid samplePaidPayment (by decide)
      (by decide) rfl).2
    9 1 RG.PayStatus.pending "note" (by decide) reconciledPaidPayment
    (by decide) rfl

/-! Claim C6: hub broadcast with one full member. -/

/-- Members with queue room all accept the enqueue and none is reported
for unregistration. -/
theorem fanout_ok (msg : String) (l : List WS.Client)
    (h : ∀ c ∈ l, c.send.length < c.cap) :
    (l.map (WS.trySend msg)).map (fun r => r.1) = l.map (WS.enqueueMsg msg) ∧
    (l.map (WS.trySend msg)).filter (fun r => !r.2) = [] := by
  induction l with
  | nil => exact ⟨rfl, rfl⟩
  | cons a t ih =>
    have ha : a.send.length < a.cap := h a (List.mem_cons_self a t)
    have ht := ih (fun c hc => h c (List.mem_cons_of_mem a hc))
    constructor
    · simp [WS.trySend, if_pos ha, ht.1]
    · simp [WS.trySend, if_pos ha, ht.2]

/-- C6: broadcasting to a channel whose member list is as ++ f :: bs,
where exactly the member f has a full queue, enqueues the message onto
every member of as and bs (N-1 members), leaves f's queue untouched,
keeps the membership of the channel as is, and issues exactly one
unregister request, for f. -/
theorem C6_broadcast_drop_slow (reg : WS.Registry) (ch msg : String)
    (as bs : List WS.Client) (f : WS.Client)
    (h1 : WS.lookupChannel reg ch = some (as ++ f :: bs))
    (h2 : ∀ c ∈ as, c.send.length < c.cap)
    (h3 : ∀ c ∈ bs, c.send.length < c.cap)
    (h4 : ¬ f.send.length < f.cap) :
    WS.broadcastToChannel reg ch msg =
      (WS.setChannel reg ch
        (as.map (WS.enqueueMsg msg) ++ f :: bs.map (WS.enqueueMsg msg)), [f]) ∧
    as.length + bs.length + 1 = (as ++ f :: bs).length := by
  constructor
  · have ha := fanout_ok msg as h2
    have hb := fanout_ok msg bs h3
    have hf : WS.trySend msg f = (f, false) := if_neg h4
    unfold WS.broadcastToChannel
    rw [h1]
    simp [List.map_append, List.filter_append, hf, ha.1, ha.2, hb.1, hb.2]
  · simp [List.length_append]
    omega

/-- C6 witness: the three-member channel with the middle member full. -/
theorem C6_broadcast_witness :
    WS.broadcastToChannel wsRegistryTrio "overlay:t" "m" =
      (WS.setChannel wsRegistryTrio "overlay:t"
        ([wsClientA].map (WS.enqueueMsg "m") ++
          wsClientFull :: [wsClientB].map (WS.enqueueMsg "m")), [wsClientFull]) ∧
    [wsClientA].length + [wsClientB].length + 1 =
      ([wsClientA] ++ wsClientFull :: [wsClientB]).length :=
  C6_broadcast_drop_slow wsRegistryTrio "overlay:t" "m" [wsClientA] [wsClientB]
    wsClientFull rfl (by decide) (by decide) (by decide)

/-! Claim C9: idempotency of unregister. -/

/-- After a channel entry is deleted, looking it up yields nothing. -/
theorem lookup_removeChannel (reg : WS.Registry) (ch : String) :
    WS.lookupChannel (WS.removeChannel reg ch) ch = none := by
  induction reg with
  | nil => rfl
  | cons e t ih =>
    by_cases h : (e.1 == ch)
    · have hstep : WS.removeChannel (e :: t) ch = WS.removeChannel t ch := by
        simp [WS.removeChannel, List.filter_cons, h]
      rw [hstep]
      exact ih
    · have hstep : WS.removeChannel (e :: t) ch = e :: WS.removeChannel t ch := by
        simp [WS.removeChannel, List.filter_cons, h]
      rw [hstep]
      unfold WS.lookupChannel
      rw [List.find?_cons_of_neg _ (by simp [h])]
      exact ih

/-- Rewriting an existing channel entry makes lookup return the new
member list. -/
theorem lookup_setChannel (reg : WS.Registry) (ch : String)
    (ms ms0 : List WS.Client) (h : WS.lookupChannel reg ch = some ms0) :
    WS.lookupChannel (WS.setChannel reg ch ms) ch = some ms := by
  induction reg with
  | nil => simp [WS.lookupChannel] at h
  | cons e t ih =>
    cases he : (e.1 == ch) with
    | true =>
      have heq : e.1 = ch := by simpa using he
      rw [show WS.setChannel (e :: t) ch ms =
          (e.1, ms) :: WS.setChannel t ch ms from by simp [WS.setChannel, heq]]
      unfold WS.lookupChannel
      rw [List.find?_cons_of_pos _ (by simpa using he)]
      rfl
    | false =>
      have hne : ¬ e.1 = ch := by simpa using he
      rw [show WS.setChannel (e :: t) ch ms =
          e :: WS.setChannel t ch ms from by simp [WS.setChannel, hne]]
      have h' : WS.lookupChannel t ch = some ms0 := by
        unfold WS.lookupChannel at h
        rw [List.find?_cons_of_neg _ (by simp [he])] at h
        exact h
      unfold WS.lookupChannel
      rw [List.find?_cons_of_neg _ (by simp [he])]
      exact ih h'

/-- A successful lookup returns the member list of some registry entry. -/
theorem lookup_mem (reg : WS.Registry) (ch : String) (ms : List WS.Client)
    (h : WS.lookupChannel reg ch = some ms) : ∃ e, e ∈ reg ∧ e.2 = ms := by
  unfold WS.lookupChannel at h
  cases hf : reg.find? (fun e => e.1 == ch) with
  | none => rw [hf] at h; cases h
  | some e =>
    rw [hf] at h
    exact ⟨e, List.mem_of_find?_eq_some hf, by injection h⟩

/-- C9: for a registry whose member sets are duplicate-free, unregister is
idempotent — the second call for the same connection leaves the registry
exactly as after the first call and performs no second close of the send
queue (close flag false) — and the channel entry is deleted by the first
call exactly when the member set became empty. -/
theorem C9_unregister_idempotent (reg : WS.Registry) (c : WS.Client)
    (hWF : ∀ e ∈ reg, e.2.Nodup) :
    WS.unregisterClient (WS.unregisterClient reg c).1 c =
      ((WS.unregisterClient reg c).1, false) ∧
    (∀ ms, WS.lookupChannel reg c.channel = some ms → c ∈ ms →
      (WS.lookupChannel (WS.unregisterClient reg c).1 c.channel = none ↔
        ms.erase c = [])) := by
  cases hl : WS.lookupChannel reg c.channel with
  | none =>
    constructor
    · simp [WS.unregisterClient, hl]
    · intro ms hms
      exact absurd hms (by simp)
  | some ms =>
    by_cases hc : c ∈ ms
    · obtain ⟨e, heMem, heEq⟩ := lookup_mem reg c.channel ms hl
      have hnd : ms.Nodup := heEq ▸ hWF e heMem
      cases hER : ms.erase c with
      | nil =>
        have hfirst : (WS.unregisterClient reg c).1 =
            WS.removeChannel reg c.channel := by
          simp [WS.unregisterClient, hl, hc, hER]
        constructor
        · rw [hfirst]
          simp [WS.unregisterClient, lookup_removeChannel]
        · intro ms2 hms2 hc2
          injection hms2 with hh
          subst hh
          rw [hfirst]
          simp [lookup_removeChannel, hER]
      | cons x xs =>
        have hfirst : (WS.unregisterClient reg c).1 =
            WS.setChannel reg c.channel (ms.erase c) := by
          simp [WS.unregisterClient, hl, hc, hER]
        have hlook2 : WS.lookupChannel
            (WS.setChannel reg c.channel (ms.erase c)) c.channel =
            some (ms.erase c) := lookup_setChannel reg c.channel _ ms hl
        have hcnot : c ∉ ms.erase c := by
          intro hx
          exact ((List.Nodup.mem_erase_iff hnd).1 hx).1 rfl
        constructor
        · rw [hfirst]
          simp [WS.unregisterClient, hlook2, hcnot]
        · intro ms2 hms2 hc2
          injection hms2 with hh
          subst hh
          rw [hfirst]
          rw [hER] at hlook2
          simp [hlook2, hER]
    · constructor
      · simp [WS.unregisterClient, hl, hc]
      · intro ms2 hms2 hc2
        injection hms2 with hh
        subst hh
        exact absurd hc2 hc

/-- C9 witness: unregistering one of two members twice. -/
theorem C9_unregister_witness :
    WS.unregisterClient (WS.unregisterClient wsRegistryPair wsClientA).1 wsClientA =
      ((WS.unregisterClient wsRegistryPair wsClientA).1, false) ∧
    (WS.lookupChannel (WS.unregisterClient wsRegistryPair wsClientA).1
        wsClientA.channel = none ↔ [wsClientA, wsClientB].erase wsClientA = []) := by
  have h := C9_unregister_idempotent wsRegistryPair wsClientA (by decide)
  exact ⟨h.1, h.2 [wsClientA, wsClientB] rfl (by decide)⟩

/-! Claim C8: donation fan-out targets only overlay channels. -/

/-- Appending strings appends their character data. -/
theorem string_data_append (s t : String) : (s ++ t).data = s.data ++ t.data := by
  cases s
  cases t
  rfl

/-- C8: every broadcast message produced by the donation fan-out targets a
channel whose name opens with the characters of "overlay:", and no such
message ever targets a channel of the form "admin:" followed by a user
id. -/
theorem C8_overlay_only (reg : WS.Registry) (event : RG.DonationEvent)
    (m : WS.BroadcastMessage) (hm : m ∈ WS.broadcastDonation reg event) :
    (∃ rest, m.channel.data = "overlay:".data ++ rest) ∧
    ∀ uid : String, m.channel ≠ "admin:" ++ uid := by
  simp only [WS.broadcastDonation, List.mem_map] at hm
  obtain ⟨ch, hch, hmeq⟩ := hm
  have hfil := (List.mem_filter.1 hch).2
  simp only [WS.isOverlayChannel, Bool.and_eq_true, decide_eq_true_eq] at hfil
  obtain ⟨hlen, htake⟩ := hfil
  have hchan : m.channel = ch := by rw [← hmeq]
  constructor
  · refine ⟨ch.data.drop 8, ?_⟩
    have hov : ("overlay:".data) = ['o','v','e','r','l','a','y',':'] := rfl
    rw [hchan, hov, ← htake, List.take_append_drop]
  · intro uid heq
    rw [hchan] at heq
    have hdata : ch.data = "admin:".data ++ uid.data := by
      rw [heq]; exact string_data_append _ _
    rw [hdata, List.take_append_eq_append_take] at htake
    have h6 : (("admin:".data).take 8) = "admin:".data :=
      List.take_of_length_le (by decide)
    rw [h6] at htake
    have hadm : ("admin:".data) = 'a' :: ("dmin:".data) := rfl
    rw [hadm, List.cons_append] at htake
    injection htake with h1 h2
    exact absurd h1 (by decide)

/-- C8 witness: the mixed registry's only produced message is for the
overlay channel. -/
theorem C8_overlay_witness :
    (∃ rest, wsOverlayMessage.channel.data = "overlay:".data ++ rest) ∧
    ∀ uid : String, wsOverlayMessage.channel ≠ "admin:" ++ uid :=
  C8_overlay_only wsRegistryMixed sampleEvent wsOverlayMessage (by decide)
